import Mathlib

/-!
Verification development for the image-upload service in
`src/models/image.js` (Express + multer + sharp + S3 + mongoose).

The service is embedded shallowly:
* the mongoose document collection is a list of `ProductRecord`s
  (schema fields `productName : String`, `Jewellery : [String]`);
* `sharp` decoding is an oracle `decode : List Nat → Option ImageMeta`
  supplied in the environment; the watermark overlay produced by
  `addWatermarkAndSave` is represented by the parameters the code computes
  and substitutes into the SVG `<text>` element, together with the
  resize/composite/encode parameters it passes to sharp;
* S3 is an oracle `s3Upload : S3Params → Except Unit String` returning the
  `Location` string on success; successful puts are accumulated in
  `s3Writes` (a put whose render failed is never attempted, a put the
  store rejected does not land — all puts of a batch are attempted
  independently, mirroring `Promise.all` over independent promises);
* JSON response bodies are association lists of string/string-array
  leaves, with one level of object nesting for the `product` field;
  mongoose bookkeeping fields (`_id`, `__v`) are omitted as no claim
  concerns them.
-/

/-- One uploaded multipart file as multer presents it to the handler. -/
structure UploadedFile where
  originalname : String
  mimetype : String
  buffer : List Nat
deriving DecidableEq, Repr

/-- The metadata sharp extracts from a decodable image. -/
structure ImageMeta where
  width : Nat
  height : Nat
deriving DecidableEq, Repr

/-- The watermarked output of `addWatermarkAndSave`: the parameters of the
SVG `<text>` element the code splices in before `</svg>`, the size the
overlay is resized to, the composite offsets, and the encoding settings.
`textX` is a rational because JavaScript `metadata.width / 2` is float
division; `textY` is an integer because `metadata.height - 2 * 96` can be
negative for short images. -/
structure RenderResult where
  label : String
  textX : ℚ
  textY : ℤ
  fontFamily : String
  fontWeight : String
  fontSize : Nat
  fill : String
  textAnchor : String
  overlayWidth : Nat
  overlayHeight : Nat
  compositeTop : Nat
  compositeLeft : Nat
  outputFormat : String
  jpegQuality : Nat
deriving DecidableEq, Repr

/-- Failure of the renderer: sharp could not decode the input buffer. -/
inductive RenderError where
  | undecodable
deriving DecidableEq, Repr

/-- Embedding of `addWatermarkAndSave(imageBuffer, watermarkText)`
(src/models/image.js lines 47-88): decode the image, compute
`positionBottom = metadata.height - (2 * 96)` and
`positionLeft = metadata.width / 2`, splice a `<text>` element with those
coordinates (font NotoSerifDisplay bold 120, white fill, middle anchor)
into the SVG template, resize the overlay to the image dimensions,
composite it at `top: 0, left: 0` and encode as JPEG at quality 90.
A decode failure is rethrown to the caller. -/
def addWatermarkAndSave (decode : List Nat → Option ImageMeta)
    (imageBuffer : List Nat) (watermarkText : String) :
    Except RenderError RenderResult :=
  match decode imageBuffer with
  | none => .error .undecodable
  | some metadata =>
    let positionBottom : ℤ := (metadata.height : ℤ) - 2 * 96
    let positionLeft : ℚ := (metadata.width : ℚ) / 2
    .ok { label := watermarkText
          textX := positionLeft
          textY := positionBottom
          fontFamily := "NotoSerifDisplay"
          fontWeight := "bold"
          fontSize := 120
          fill := "white"
          textAnchor := "middle"
          overlayWidth := metadata.width
          overlayHeight := metadata.height
          compositeTop := 0
          compositeLeft := 0
          outputFormat := "jpeg"
          jpegQuality := 90 }

/-- The parameter object passed to `s3.upload` (src/models/image.js
lines 112-117): bucket, key `products/<Date.now()>-<originalname>`, the
watermarked body, and `ContentType: file.mimetype`. -/
structure S3Params where
  Bucket : String
  Key : String
  Body : RenderResult
  ContentType : String
deriving DecidableEq, Repr

/-- The external environment of one request: the sharp decode oracle, the
bucket name and `Date.now()` value, the S3 upload oracle (`Location` on
success), and whether the mongo write fails. -/
structure Env where
  decode : List Nat → Option ImageMeta
  bucketName : String
  now : Nat
  s3Upload : S3Params → Except Unit String
  dbFails : Bool

/-- A rejection inside the `uploadPromises` batch: either the render threw
(propagated unchanged) or S3 rejected (rethrown as
`S3 upload failed for <originalname>`). -/
inductive BatchError where
  | renderFailed
  | s3Failed (originalname : String)
deriving DecidableEq, Repr

/-- The key `products/<Date.now()>-<file.originalname>`. -/
def s3Key (env : Env) (file : UploadedFile) : String :=
  "products/" ++ toString env.now ++ "-" ++ file.originalname

/-- One element of the `req.files.map(...)` batch (src/models/image.js
lines 107-124): watermark the file, build the S3 params, upload; on
success yield the params that landed and the returned `Location`. -/
def processFile (env : Env) (productName : String) (file : UploadedFile) :
    Except BatchError (S3Params × String) :=
  match addWatermarkAndSave env.decode file.buffer productName with
  | .error _ => .error .renderFailed
  | .ok watermarkedBuffer =>
    let params : S3Params :=
      { Bucket := env.bucketName
        Key := s3Key env file
        Body := watermarkedBuffer
        ContentType := file.mimetype }
    match env.s3Upload params with
    | .error _ => .error (.s3Failed file.originalname)
    | .ok location => .ok (params, location)

/-- A mongoose document of the `Image` model (src/models/image.js lines
3-6): `productName` (String, required) and `Jewellery` ([String],
required), the array of image URLs. -/
structure ProductRecord where
  productName : String
  Jewellery : List String
deriving DecidableEq, Repr

/-- `Image.findOne({ productName })`: first document matching the name. -/
def findOne (db : List ProductRecord) (name : String) :
    Option ProductRecord :=
  match db with
  | [] => none
  | r :: rest => if r.productName = name then some r else findOne rest name

/-- `Image.findOneAndUpdate({ productName }, { $push: { Jewellery:
{ $each: imageUrls } } }, { new: true, upsert: true })` (src/models/
image.js lines 138-144): append the URLs to the first matching document,
or insert a fresh document when none matches; return the updated document
together with the updated collection. -/
def findOneAndUpdatePush (db : List ProductRecord) (name : String)
    (urls : List String) : ProductRecord × List ProductRecord :=
  match db with
  | [] => (⟨name, urls⟩, [⟨name, urls⟩])
  | r :: rest =>
    if r.productName = name then
      (⟨r.productName, r.Jewellery ++ urls⟩,
        ⟨r.productName, r.Jewellery ++ urls⟩ :: rest)
    else
      let p := findOneAndUpdatePush rest name urls
      (p.1, r :: p.2)

/-- A leaf JSON value in a response body: a string or an array of
strings. -/
inductive JLeaf where
  | str (s : String)
  | strArr (xs : List String)
deriving DecidableEq, Repr

/-- A JSON value one level up: a leaf or a flat object of leaves. -/
inductive JVal where
  | leaf (v : JLeaf)
  | obj (fields : List (String × JLeaf))
deriving DecidableEq, Repr

/-- A JSON response body: an object. -/
abbrev JObj := List (String × JVal)

/-- The JSON serialization of a product document: the schema fields, in
schema order (`_id`/`__v` bookkeeping omitted). -/
def recordToJson (r : ProductRecord) : List (String × JLeaf) :=
  [("productName", .str r.productName), ("Jewellery", .strArr r.Jewellery)]

/-- Look a key up in a flat JSON object. -/
def jlookup (fields : List (String × JLeaf)) (k : String) : Option JLeaf :=
  (fields.find? (fun p => p.1 = k)).map Prod.snd

/-- The observable outcome of a request to the POST route: HTTP status,
body (`none` is the Express default HTML error page, i.e. not JSON), the
collection afterwards, the S3 objects that landed, and the mongo update
operations that were applied. -/
structure HandlerOut where
  status : Nat
  body : Option JObj
  db : List ProductRecord
  s3Writes : List S3Params
  dbWrites : List (String × List String)
deriving DecidableEq, Repr

/-- Body of the 400 validation response. -/
def validationErrorBody : JObj :=
  [("error", .leaf (.str "Product name and at least one image are required."))]

/-- Body of the 500 response produced by the catch around
`Promise.all(uploadPromises)` — used for every batch rejection, whether
the render or the S3 upload failed. -/
def s3FailBody : JObj :=
  [("error", .leaf (.str "S3 upload failed. Check server logs for details."))]

/-- Body of the 500 response when the mongo update fails. -/
def dbFailBody : JObj :=
  [("error", .leaf (.str "Failed to save image URLs to the database."))]

/-- Body of the 201 response: `{ message, product }`. -/
def successBody (r : ProductRecord) : JObj :=
  [("message", .leaf (.str "Images uploaded and saved successfully!")),
    ("product", .obj (recordToJson r))]

/-- JavaScript falsiness of `productName` extracted from the body: absent
or the empty string. -/
def falsy : Option String → Bool
  | none => true
  | some s => s = ""

/-- The successful `Location`s of a batch, in submission order. -/
def batchUrls (env : Env) (productName : String)
    (files : List UploadedFile) : List String :=
  (files.map (processFile env productName)).filterMap
    (fun r => r.toOption.map Prod.snd)

/-- The S3 objects of a batch that landed in the store, in submission
order (renders that failed were never uploaded; rejected uploads did not
land). -/
def s3Landed (env : Env) (productName : String)
    (files : List UploadedFile) : List S3Params :=
  (files.map (processFile env productName)).filterMap
    (fun r => r.toOption.map Prod.fst)

/-- Embedding of the `POST /api/images/upload` handler body
(src/models/image.js lines 96-162), after multer has populated
`req.files`: validate, run the batch, join at `Promise.all` (any
rejection means 500 with `s3FailBody`, the landed objects staying in the
store), then upsert the URLs and answer 201 with `{ message, product }`. -/
def uploadHandler (env : Env) (db : List ProductRecord)
    (productName : Option String) (files : List UploadedFile) :
    HandlerOut :=
  if falsy productName || files.length == 0 then
    { status := 400, body := some validationErrorBody, db := db
      s3Writes := [], dbWrites := [] }
  else
    let pn := productName.getD ""
    let results := files.map (processFile env pn)
    let landed := results.filterMap (fun r => r.toOption.map Prod.fst)
    if results.all Except.isOk then
      let imageUrls := results.filterMap (fun r => r.toOption.map Prod.snd)
      if env.dbFails then
        { status := 500, body := some dbFailBody, db := db
          s3Writes := landed, dbWrites := [] }
      else
        let p := findOneAndUpdatePush db pn imageUrls
        { status := 201, body := some (successBody p.1), db := p.2
          s3Writes := landed, dbWrites := [(pn, imageUrls)] }
    else
      { status := 500, body := some s3FailBody, db := db
        s3Writes := landed, dbWrites := [] }

/-- Multer's error when more files arrive under a field than
`upload.array(field, maxCount)` allows. -/
inductive MulterError where
  | limitUnexpectedFile
deriving DecidableEq, Repr

/-- Embedding of the `upload.array('images', 10)` middleware: multer is
documented to error out (code LIMIT_UNEXPECTED_FILE) when more than
`maxCount` files are uploaded under the field; otherwise it passes all
files through to the handler. -/
def multerArrayLimit (maxCount : Nat) (files : List UploadedFile) :
    Except MulterError (List UploadedFile) :=
  if files.length > maxCount then .error .limitUnexpectedFile
  else .ok files

/-- The full `POST /api/images/upload` route: the multer middleware
followed by the handler. A multer error reaches the Express default error
handler, which answers 500 with an HTML page (no JSON body) since
`MulterError` carries no status; the handler never runs, so nothing is
written anywhere. -/
def postUploadRoute (env : Env) (db : List ProductRecord)
    (productName : Option String) (files : List UploadedFile) :
    HandlerOut :=
  match multerArrayLimit 10 files with
  | .error _ =>
    { status := 500, body := none, db := db, s3Writes := [], dbWrites := [] }
  | .ok fs => uploadHandler env db productName fs

/-- Embedding of the `GET /api/images/:productName` route
(src/models/image.js lines 166-178): `findOne` by name, 404 with
`{ error: 'Product not found' }` on a miss, 200 with the document JSON on
a hit. -/
def getImagesRoute (db : List ProductRecord) (productName : String) :
    Nat × JObj :=
  match findOne db productName with
  | none => (404, [("error", .leaf (.str "Product not found"))])
  | some images => (200, (recordToJson images).map (fun p => (p.1, JVal.leaf p.2)))

/-- The `product` object of a 201 body, when present. -/
def productField (body : Option JObj) : Option (List (String × JLeaf)) :=
  match body with
  | none => none
  | some fields =>
    match (fields.find? (fun p => p.1 = "product")).map Prod.snd with
    | some (.obj o) => some o
    | _ => none

/-! ## Helper lemmas about the collection operations -/

/-- The collection's list of product names. -/
def dbNames (db : List ProductRecord) : List String :=
  db.map (fun r => r.productName)

theorem findOne_none_not_mem {db : List ProductRecord} {name : String}
    (h : findOne db name = none) : name ∉ dbNames db := by
  induction db with
  | nil => simp [dbNames]
  | cons r rest ih =>
    by_cases hc : r.productName = name
    · simp [findOne, hc] at h
    · simp [findOne, hc] at h
      simp [dbNames] at ih ⊢
      exact ⟨fun he => hc he.symm, ih h⟩

theorem findOneAndUpdatePush_not_found {db : List ProductRecord}
    {name : String} {urls : List String} (h : findOne db name = none) :
    findOneAndUpdatePush db name urls = (⟨name, urls⟩, db ++ [⟨name, urls⟩]) := by
  induction db with
  | nil => rfl
  | cons r rest ih =>
    by_cases hc : r.productName = name
    · simp [findOne, hc] at h
    · simp [findOne, hc] at h
      simp [findOneAndUpdatePush, hc, ih h]

theorem findOne_append_of_none {db l : List ProductRecord} {name : String}
    (h : findOne db name = none) :
    findOne (db ++ l) name = findOne l name := by
  induction db with
  | nil => rfl
  | cons r rest ih =>
    by_cases hc : r.productName = name
    · simp [findOne, hc] at h
    · simp [findOne, hc] at h ⊢
      exact ih h

theorem findOneAndUpdatePush_found {db : List ProductRecord}
    {name : String} {urls : List String} {r : ProductRecord}
    (h : findOne db name = some r) :
    (findOneAndUpdatePush db name urls).1 = ⟨name, r.Jewellery ++ urls⟩ ∧
    findOne (findOneAndUpdatePush db name urls).2 name =
      some ⟨name, r.Jewellery ++ urls⟩ := by
  induction db with
  | nil => simp [findOne] at h
  | cons a rest ih =>
    by_cases hc : a.productName = name
    · simp [findOne, hc] at h
      subst h
      simp [findOneAndUpdatePush, hc, findOne]
    · simp [findOne, hc] at h
      have := ih h
      simp [findOneAndUpdatePush, hc, findOne, this.1, this.2]

theorem dbNames_push_found {db : List ProductRecord} {name : String}
    {urls : List String} {r : ProductRecord} (h : findOne db name = some r) :
    dbNames (findOneAndUpdatePush db name urls).2 = dbNames db := by
  induction db with
  | nil => simp [findOne] at h
  | cons a rest ih =>
    by_cases hc : a.productName = name
    · simp [findOneAndUpdatePush, hc, dbNames]
    · simp [findOne, hc] at h
      simp [findOneAndUpdatePush, hc, dbNames] at ih ⊢
      exact ih h

theorem nodup_dbNames_push {db : List ProductRecord} {name : String}
    {urls : List String} (h : (dbNames db).Nodup) :
    (dbNames (findOneAndUpdatePush db name urls).2).Nodup := by
  cases hf : findOne db name with
  | none =>
    rw [findOneAndUpdatePush_not_found hf]
    have hm := findOne_none_not_mem hf
    simp [dbNames] at h hm ⊢
    simpa [List.nodup_append] using ⟨h, hm⟩
  | some r => rw [dbNames_push_found hf]; exact h

theorem batchUrls_length {env : Env} {pn : String} {files : List UploadedFile}
    (hok : ∀ f ∈ files, (processFile env pn f).isOk = true) :
    (batchUrls env pn files).length = files.length := by
  induction files with
  | nil => rfl
  | cons f fs ih =>
    have hf := hok f (by simp)
    cases hp : processFile env pn f with
    | error e => rw [hp] at hf; simp [Except.isOk, Except.toBool] at hf
    | ok v =>
      have hstep : batchUrls env pn (f :: fs) = v.2 :: batchUrls env pn fs := by
        simp [batchUrls, List.filterMap_cons, hp, Except.toOption]
      rw [hstep, List.length_cons, List.length_cons,
        ih (fun g hg => hok g (by simp [hg]))]

theorem multer_under_limit {env : Env} {db : List ProductRecord}
    {name : Option String} {files : List UploadedFile}
    (h : files.length ≤ 10) :
    postUploadRoute env db name files = uploadHandler env db name files := by
  simp [postUploadRoute, multerArrayLimit, Nat.not_lt.mpr h]

theorem uploadHandler_success {env : Env} {db : List ProductRecord}
    {pn : String} {files : List UploadedFile}
    (hpn : pn ≠ "") (hne : files ≠ [])
    (hok : ∀ f ∈ files, (processFile env pn f).isOk = true)
    (hdb : env.dbFails = false) :
    uploadHandler env db (some pn) files =
      { status := 201
        body := some (successBody
          (findOneAndUpdatePush db pn (batchUrls env pn files)).1)
        db := (findOneAndUpdatePush db pn (batchUrls env pn files)).2
        s3Writes := s3Landed env pn files
        dbWrites := [(pn, batchUrls env pn files)] } := by
  have hfalsy : falsy (some pn) = false := by simp [falsy, hpn]
  have hlen : (files.length == 0) = false := by
    simpa using fun hz => hne (List.length_eq_zero.mp hz)
  have hall : (files.map (processFile env pn)).all Except.isOk = true := by
    rw [List.all_eq_true]
    intro x hx
    obtain ⟨f, hf, rfl⟩ := List.mem_map.mp hx
    exact hok f hf
  simp [uploadHandler, hfalsy, hlen, hall, hdb, batchUrls, s3Landed]

theorem uploadHandler_batch_failure {env : Env} {db : List ProductRecord}
    {pn : String} {files : List UploadedFile}
    (hpn : pn ≠ "") (hne : files ≠ [])
    (hbad : ∃ f ∈ files, (processFile env pn f).isOk = false) :
    uploadHandler env db (some pn) files =
      { status := 500, body := some s3FailBody, db := db
        s3Writes := s3Landed env pn files, dbWrites := [] } := by
  have hfalsy : falsy (some pn) = false := by simp [falsy, hpn]
  have hlen : (files.length == 0) = false := by
    simpa using fun hz => hne (List.length_eq_zero.mp hz)
  have hall : (files.map (processFile env pn)).all Except.isOk = false := by
    obtain ⟨f, hf, hko⟩ := hbad
    rw [← Bool.not_eq_true, List.all_eq_true]
    intro hcontra
    have := hcontra (processFile env pn f) (List.mem_map_of_mem _ hf)
    rw [this] at hko
    exact Bool.noConfusion hko
  simp [uploadHandler, hfalsy, hlen, hall, s3Landed]

theorem uploadHandler_validation_failure {env : Env} {db : List ProductRecord}
    {name : Option String} {files : List UploadedFile}
    (h : falsy name = true ∨ files = []) :
    uploadHandler env db name files =
      { status := 400, body := some validationErrorBody, db := db
        s3Writes := [], dbWrites := [] } := by
  have hcond : (falsy name || files.length == 0) = true := by
    rcases h with h | h
    · simp [h]
    · simp [h]
  simp [uploadHandler, hcond]

/-! ## Concrete fixtures used by witnesses and counterexamples -/

/-- A decode oracle: the empty buffer is undecodable, anything else decodes
to an 800x600 image. -/
def decode0 : List Nat → Option ImageMeta :=
  fun b => if b = [] then none else some ⟨800, 600⟩

/-- An environment where every render and upload succeeds. -/
def env0 : Env :=
  { decode := decode0, bucketName := "bkt", now := 7
    s3Upload := fun _ => .ok "locA", dbFails := false }

/-- An environment where sharp decodes nothing (every render fails). -/
def envRF : Env :=
  { decode := fun _ => none, bucketName := "bkt", now := 7
    s3Upload := fun _ => .ok "locA", dbFails := false }

/-- An environment where the object store rejects every upload. -/
def envSF : Env :=
  { decode := decode0, bucketName := "bkt", now := 7
    s3Upload := fun _ => .error (), dbFails := false }

/-- First-request environment for the accumulation scenario. -/
def envL1 : Env :=
  { decode := decode0, bucketName := "bkt", now := 7
    s3Upload := fun _ => .ok "loc1", dbFails := false }

/-- Second-request environment for the accumulation scenario. -/
def envL2 : Env :=
  { decode := decode0, bucketName := "bkt", now := 8
    s3Upload := fun _ => .ok "loc2", dbFails := false }

/-- A PNG upload fixture. -/
def fA : UploadedFile :=
  { originalname := "a.png", mimetype := "image/png", buffer := [1] }

/-- A JPEG upload fixture. -/
def fB : UploadedFile :=
  { originalname := "b.jpg", mimetype := "image/jpeg", buffer := [2] }

/-! ## Shared characterization of the renderer -/

theorem addWatermarkAndSave_eq {decode : List Nat → Option ImageMeta}
    {buf : List Nat} {label : String} {m : ImageMeta}
    (h : decode buf = some m) :
    addWatermarkAndSave decode buf label = .ok
      { label := label
        textX := (m.width : ℚ) / 2
        textY := (m.height : ℤ) - 2 * 96
        fontFamily := "NotoSerifDisplay"
        fontWeight := "bold"
        fontSize := 120
        fill := "white"
        textAnchor := "middle"
        overlayWidth := m.width
        overlayHeight := m.height
        compositeTop := 0
        compositeLeft := 0
        outputFormat := "jpeg"
        jpegQuality := 90 } := by
  simp [addWatermarkAndSave, h]

/-! ## C6 -/

/-- C6 (confirmed): for every decodable input image of width `W` and
height `H` and every label, the renderer places the label at horizontal
center (`x = W/2`, middle-anchored) and at vertical position
`y = H - 192`, composites the overlay (resized to the full image bounding
box) at the top-left origin, and encodes the result as JPEG at
quality 90. -/
theorem renderer_places_label_and_encodes {decode : List Nat → Option ImageMeta}
    {buf : List Nat} {label : String} {m : ImageMeta}
    (h : decode buf = some m) :
    addWatermarkAndSave decode buf label = .ok
      { label := label
        textX := (m.width : ℚ) / 2
        textY := (m.height : ℤ) - 192
        fontFamily := "NotoSerifDisplay"
        fontWeight := "bold"
        fontSize := 120
        fill := "white"
        textAnchor := "middle"
        overlayWidth := m.width
        overlayHeight := m.height
        compositeTop := 0
        compositeLeft := 0
        outputFormat := "jpeg"
        jpegQuality := 90 } := by
  rw [addWatermarkAndSave_eq h]
  norm_num

/-- Witness for C6: the renderer on a concrete decodable 800x600 buffer. -/
theorem renderer_places_label_and_encodes_witness :
    decode0 [1] = some ⟨800, 600⟩ ∧
    addWatermarkAndSave decode0 [1] "ring" = .ok
      { label := "ring"
        textX := (800 : ℚ) / 2
        textY := (600 : ℤ) - 192
        fontFamily := "NotoSerifDisplay"
        fontWeight := "bold"
        fontSize := 120
        fill := "white"
        textAnchor := "middle"
        overlayWidth := 800
        overlayHeight := 600
        compositeTop := 0
        compositeLeft := 0
        outputFormat := "jpeg"
        jpegQuality := 90 } :=
  ⟨rfl, renderer_places_label_and_encodes rfl⟩

/-! ## C10 -/

/-- C10 (confirmed): for every successfully processed file, the body
handed to the object store is JPEG-encoded at quality 90, while the
recorded `ContentType` is the original upload's mimetype — so for a
non-JPEG input the stored content type does not describe the stored
bytes. -/
theorem stored_jpeg_original_content_type (env : Env) (pn : String)
    (file : UploadedFile) (h : (processFile env pn file).isOk = true) :
    ∃ params loc, processFile env pn file = .ok (params, loc) ∧
      params.ContentType = file.mimetype ∧
      params.Body.outputFormat = "jpeg" ∧
      params.Body.jpegQuality = 90 ∧
      (file.mimetype ≠ "image/jpeg" → params.ContentType ≠ "image/jpeg") := by
  cases hd : env.decode file.buffer with
  | none =>
    rw [processFile] at h
    rw [show addWatermarkAndSave env.decode file.buffer pn = .error .undecodable
      from by simp [addWatermarkAndSave, hd]] at h
    simp [Except.isOk, Except.toBool] at h
  | some m =>
    simp only [processFile, addWatermarkAndSave_eq hd] at h ⊢
    cases hs : env.s3Upload
        { Bucket := env.bucketName
          Key := s3Key env file
          Body :=
            { label := pn
              textX := (m.width : ℚ) / 2
              textY := (m.height : ℤ) - 2 * 96
              fontFamily := "NotoSerifDisplay"
              fontWeight := "bold"
              fontSize := 120
              fill := "white"
              textAnchor := "middle"
              overlayWidth := m.width
              overlayHeight := m.height
              compositeTop := 0
              compositeLeft := 0
              outputFormat := "jpeg"
              jpegQuality := 90 }
          ContentType := file.mimetype } with
    | error e => rw [hs] at h; simp [Except.isOk, Except.toBool] at h
    | ok loc =>
      exact ⟨_, loc, rfl, rfl, rfl, rfl, fun hne => hne⟩

/-- Witness for C10: the PNG fixture is stored as JPEG bytes under
content type `image/png`. -/
theorem stored_jpeg_original_content_type_witness :
    (processFile env0 "p" fA).isOk = true ∧
    ∃ params loc, processFile env0 "p" fA = .ok (params, loc) ∧
      params.ContentType = fA.mimetype ∧
      params.Body.outputFormat = "jpeg" ∧
      params.Body.jpegQuality = 90 ∧
      (fA.mimetype ≠ "image/jpeg" → params.ContentType ≠ "image/jpeg") :=
  ⟨by decide, stored_jpeg_original_content_type env0 "p" fA (by decide)⟩

/-! ## C3 -/

/-- C3 (amended): for every upload request with at most 10 files and with
zero files or an empty or missing product name, the service responds 400
with `{ error }` and performs no object-store write and no document-store
write. -/
theorem validation_failure_no_writes (env : Env) (db : List ProductRecord)
    (name : Option String) (files : List UploadedFile)
    (hlen : files.length ≤ 10)
    (h : falsy name = true ∨ files = []) :
    postUploadRoute env db name files =
      { status := 400, body := some validationErrorBody, db := db
        s3Writes := [], dbWrites := [] } := by
  rw [multer_under_limit hlen]
  exact uploadHandler_validation_failure h

/-- Witness for C3: an empty product name with one file is answered 400
and nothing is written. -/
theorem validation_failure_no_writes_witness :
    postUploadRoute env0 [] (some "") [fA] =
      { status := 400, body := some validationErrorBody, db := []
        s3Writes := [], dbWrites := [] } :=
  validation_failure_no_writes env0 [] (some "") [fA] (by decide)
    (Or.inl (by decide))

/-- Counterexample for C3 as stated: a request with a missing product name
and 11 files is not answered 400 with `{ error }` — multer aborts the
request first and the Express default error handler answers 500 with a
non-JSON page. -/
theorem missing_name_eleven_files_not_400 :
    (postUploadRoute env0 [] none (List.replicate 11 fA)).status = 500 ∧
    (postUploadRoute env0 [] none (List.replicate 11 fA)).body = none := by
  exact ⟨by decide, by decide⟩

/-! ## C7 -/

/-- C7 (amended): for every upload request with more than 10 files under
the `images` field, multer errors out (LIMIT_UNEXPECTED_FILE) and the
whole request is rejected with a server error: no file is accepted and
nothing is written. -/
theorem over_limit_request_rejected (env : Env) (db : List ProductRecord)
    (name : Option String) (files : List UploadedFile)
    (h : files.length > 10) :
    postUploadRoute env db name files =
      { status := 500, body := none, db := db
        s3Writes := [], dbWrites := [] } := by
  simp [postUploadRoute, multerArrayLimit, h]

/-- Witness for C7: a 12-file request is rejected whole. -/
theorem over_limit_request_rejected_witness :
    postUploadRoute env0 [] (some "q") (List.replicate 12 fB) =
      { status := 500, body := none, db := []
        s3Writes := [], dbWrites := [] } :=
  over_limit_request_rejected env0 [] (some "q") (List.replicate 12 fB)
    (by decide)

/-- Counterexample for C7 as stated: an 11-file request is not handled as
"first 10 accepted" — the same request truncated to its first 10 files
succeeds with 201, while the 11-file request gets a 500 non-JSON error
and nothing lands in the store. -/
theorem eleven_files_not_first_ten :
    (postUploadRoute env0 [] (some "p") (List.replicate 11 fA)).status = 500 ∧
    (postUploadRoute env0 [] (some "p") (List.replicate 11 fA)).body = none ∧
    (postUploadRoute env0 [] (some "p") (List.replicate 11 fA)).s3Writes = [] ∧
    (postUploadRoute env0 [] (some "p")
      (List.take 10 (List.replicate 11 fA))).status = 201 := by
  refine ⟨by decide, by decide, by decide, by decide⟩

/-! ## C1 -/

/-- C1 (amended): for every valid upload request with N files (1 ≤ N ≤ 10)
and a product name with no existing record, a successful POST to
`/api/images/upload` responds 201 with a JSON body `{ message, product }`
where `product` is the Product Record and `product.Jewellery` has exactly
N entries. -/
theorem upload_fresh_success_response (env : Env) (db : List ProductRecord)
    (pn : String) (files : List UploadedFile)
    (hpn : pn ≠ "") (hne : files ≠ []) (hlen : files.length ≤ 10)
    (hfresh : findOne db pn = none)
    (hok : ∀ f ∈ files, (processFile env pn f).isOk = true)
    (hdb : env.dbFails = false) :
    ∃ rec : ProductRecord,
      (postUploadRoute env db (some pn) files).status = 201 ∧
      (postUploadRoute env db (some pn) files).body = some (successBody rec) ∧
      jlookup (recordToJson rec) "Jewellery" = some (.strArr rec.Jewellery) ∧
      rec.Jewellery.length = files.length := by
  rw [multer_under_limit hlen, uploadHandler_success hpn hne hok hdb]
  refine ⟨(findOneAndUpdatePush db pn (batchUrls env pn files)).1,
    rfl, rfl, rfl, ?_⟩
  rw [findOneAndUpdatePush_not_found hfresh]
  exact batchUrls_length hok

/-- Witness for C1: two files for a fresh name. -/
theorem upload_fresh_success_response_witness :
    ∃ rec : ProductRecord,
      (postUploadRoute env0 [] (some "ring") [fA, fB]).status = 201 ∧
      (postUploadRoute env0 [] (some "ring") [fA, fB]).body =
        some (successBody rec) ∧
      jlookup (recordToJson rec) "Jewellery" = some (.strArr rec.Jewellery) ∧
      rec.Jewellery.length = [fA, fB].length :=
  upload_fresh_success_response env0 [] "ring" [fA, fB] (by decide)
    (by decide) (by decide) (by decide) (by decide) (by decide)

/-- Counterexample for C1 as stated: a successful 2-file upload for a
fresh name answers 201 with a `product` object, but that object has no
`images` entry (`product.images` is undefined — the list is under
`Jewellery`), so `product.images` does not have exactly N entries. -/
theorem upload_product_images_field_absent :
    (postUploadRoute env0 [] (some "ring") [fA, fB]).status = 201 ∧
    productField (postUploadRoute env0 [] (some "ring") [fA, fB]).body ≠
      none ∧
    (productField (postUploadRoute env0 [] (some "ring") [fA, fB]).body).bind
      (fun o => jlookup o "images") = none := by
  refine ⟨by decide, by decide, by decide⟩

/-! ## C2 -/

/-- C2 (confirmed): for every upload request in which the object store
rejects at least one of the uploads, the `Promise.all` join rejects, the
document-store write is never issued (the collection is unchanged and no
update operation is applied), and the service returns 500. -/
theorem s3_rejection_aborts_batch (env : Env) (db : List ProductRecord)
    (pn : String) (files : List UploadedFile) (f : UploadedFile)
    (hpn : pn ≠ "") (hne : files ≠ []) (hlen : files.length ≤ 10)
    (hf : f ∈ files)
    (hrej : processFile env pn f = .error (.s3Failed f.originalname)) :
    (postUploadRoute env db (some pn) files).status = 500 ∧
    (postUploadRoute env db (some pn) files).dbWrites = [] ∧
    (postUploadRoute env db (some pn) files).db = db := by
  rw [multer_under_limit hlen, uploadHandler_batch_failure hpn hne
    ⟨f, hf, by rw [hrej]; rfl⟩]
  exact ⟨rfl, rfl, rfl⟩

/-- Witness for C2: the store rejects the only upload of a batch. -/
theorem s3_rejection_aborts_batch_witness :
    (postUploadRoute envSF [⟨"p", ["old"]⟩] (some "p") [fA]).status = 500 ∧
    (postUploadRoute envSF [⟨"p", ["old"]⟩] (some "p") [fA]).dbWrites = [] ∧
    (postUploadRoute envSF [⟨"p", ["old"]⟩] (some "p") [fA]).db =
      [⟨"p", ["old"]⟩] :=
  s3_rejection_aborts_batch envSF [⟨"p", ["old"]⟩] "p" [fA] fA (by decide)
    (by decide) (by decide) (by decide) rfl

/-! ## C9 -/

/-- C9 (amended): a render failure (undecodable image) and an object-store
failure are both reported to the client as server errors (500), but with
the same JSON error body `{ error: 'S3 upload failed. Check server logs
for details.' }` — the two failure categories are not distinguished in
the client-visible message. -/
theorem batch_failure_single_error_body (env : Env)
    (db : List ProductRecord) (pn : String) (files : List UploadedFile)
    (hpn : pn ≠ "") (hne : files ≠ []) (hlen : files.length ≤ 10)
    (hbad : ∃ f ∈ files, (processFile env pn f).isOk = false) :
    (postUploadRoute env db (some pn) files).status = 500 ∧
    (postUploadRoute env db (some pn) files).body = some s3FailBody := by
  rw [multer_under_limit hlen, uploadHandler_batch_failure hpn hne hbad]
  exact ⟨rfl, rfl⟩

/-- Witness for C9 (amended): a batch whose single render fails is
answered 500 with the fixed body. -/
theorem batch_failure_single_error_body_witness :
    (postUploadRoute envRF [] (some "p") [fA]).status = 500 ∧
    (postUploadRoute envRF [] (some "p") [fA]).body = some s3FailBody :=
  batch_failure_single_error_body envRF [] "p" [fA] (by decide) (by decide)
    (by decide) ⟨fA, by decide, by decide⟩

/-- Counterexample for C9 as stated: a request failing with a render error
and a request failing with an object-store error produce identical
client-visible bodies, so the two categories do not have distinct error
messages. -/
theorem render_and_upload_failures_same_body :
    processFile envRF "p" fB = .error .renderFailed ∧
    processFile envSF "p" fB = .error (.s3Failed "b.jpg") ∧
    (postUploadRoute envRF [] (some "pp") [fB]).status = 500 ∧
    (postUploadRoute envSF [] (some "pp") [fB]).status = 500 ∧
    (postUploadRoute envRF [] (some "pp") [fB]).body =
      (postUploadRoute envSF [] (some "pp") [fB]).body := by
  refine ⟨rfl, rfl, by decide, by decide, by decide⟩

/-! ## C4 -/

/-- C4 (amended): every persisted Product Record has the shape
`{ productName : string, Jewellery : ordered list of string }` — the
image-location list is stored under a field named `Jewellery` (there is
no `images` field) — and the upload route preserves the invariant that
`productName` is unique across the collection (the schema itself does not
declare a unique index; uniqueness is maintained by the upsert). -/
theorem jewellery_field_and_unique_names (env : Env)
    (db : List ProductRecord) (name : Option String)
    (files : List UploadedFile) (hu : (dbNames db).Nodup) :
    (dbNames (postUploadRoute env db name files).db).Nodup ∧
    ∀ r : ProductRecord,
      jlookup (recordToJson r) "Jewellery" = some (.strArr r.Jewellery) ∧
      jlookup (recordToJson r) "images" = none := by
  refine ⟨?_, fun r => ⟨rfl, rfl⟩⟩
  by_cases hm : 10 < files.length
  · simpa [postUploadRoute, multerArrayLimit, hm] using hu
  · rw [multer_under_limit (Nat.not_lt.mp hm)]
    simp only [uploadHandler]
    split
    · exact hu
    · split
      · split
        · exact hu
        · exact nodup_dbNames_push hu
      · exact hu

/-- Witness for C4: a one-file upload into a collection holding one other
name. -/
theorem jewellery_field_and_unique_names_witness :
    (dbNames (postUploadRoute env0 [⟨"x", ["u"]⟩] (some "ring")
      [fA]).db).Nodup ∧
    ∀ r : ProductRecord,
      jlookup (recordToJson r) "Jewellery" = some (.strArr r.Jewellery) ∧
      jlookup (recordToJson r) "images" = none :=
  jewellery_field_and_unique_names env0 [⟨"x", ["u"]⟩] (some "ring") [fA]
    (by decide)

/-- Counterexample for C4 as stated: the record persisted by a concrete
successful upload serializes with no `images` field at all — its location
list sits under `Jewellery`. -/
theorem persisted_record_has_no_images_field :
    (postUploadRoute env0 [] (some "ring") [fA]).db =
      [⟨"ring", ["locA"]⟩] ∧
    jlookup (recordToJson ⟨"ring", ["locA"]⟩) "images" = none ∧
    jlookup (recordToJson ⟨"ring", ["locA"]⟩) "Jewellery" =
      some (.strArr ["locA"]) := by
  refine ⟨by decide, by decide, by decide⟩

/-! ## C5 -/

/-- C5 (confirmed): for every pair of successful upload requests for the
same fresh product name, the resulting record's `Jewellery` sequence is
the concatenation of the first batch's locations followed by the second
batch's, each batch in submission order; and every location the uploader
returned for either request is present in the record afterwards. -/
theorem two_uploads_accumulate (env1 env2 : Env) (db : List ProductRecord)
    (pn : String) (files1 files2 : List UploadedFile)
    (hpn : pn ≠ "") (hfresh : findOne db pn = none)
    (h1ne : files1 ≠ []) (h1len : files1.length ≤ 10)
    (h1ok : ∀ f ∈ files1, (processFile env1 pn f).isOk = true)
    (h1db : env1.dbFails = false)
    (h2ne : files2 ≠ []) (h2len : files2.length ≤ 10)
    (h2ok : ∀ f ∈ files2, (processFile env2 pn f).isOk = true)
    (h2db : env2.dbFails = false) :
    (postUploadRoute env1 db (some pn) files1).status = 201 ∧
    (postUploadRoute env2 (postUploadRoute env1 db (some pn) files1).db
      (some pn) files2).status = 201 ∧
    findOne (postUploadRoute env2
      (postUploadRoute env1 db (some pn) files1).db (some pn) files2).db pn =
      some ⟨pn, batchUrls env1 pn files1 ++ batchUrls env2 pn files2⟩ ∧
    ∀ l, (l ∈ batchUrls env1 pn files1 ∨ l ∈ batchUrls env2 pn files2) →
      ∃ rec, findOne (postUploadRoute env2
          (postUploadRoute env1 db (some pn) files1).db (some pn)
          files2).db pn = some rec ∧ l ∈ rec.Jewellery := by
  have e1 := (@multer_under_limit env1 db (some pn) files1 h1len).trans
    (uploadHandler_success hpn h1ne h1ok h1db)
  have hdb1 : (postUploadRoute env1 db (some pn) files1).db =
      db ++ [⟨pn, batchUrls env1 pn files1⟩] := by
    rw [e1, findOneAndUpdatePush_not_found hfresh]
  have hfind1 : findOne (postUploadRoute env1 db (some pn) files1).db pn =
      some ⟨pn, batchUrls env1 pn files1⟩ := by
    rw [hdb1, findOne_append_of_none hfresh]
    simp [findOne]
  have e2 := (@multer_under_limit env2
    (postUploadRoute env1 db (some pn) files1).db (some pn) files2
    h2len).trans (uploadHandler_success hpn h2ne h2ok h2db)
  have hpush2 := @findOneAndUpdatePush_found _ pn
    (batchUrls env2 pn files2) _ hfind1
  have hfind2 : findOne (postUploadRoute env2
      (postUploadRoute env1 db (some pn) files1).db (some pn) files2).db pn =
      some ⟨pn, batchUrls env1 pn files1 ++ batchUrls env2 pn files2⟩ := by
    rw [e2]
    exact hpush2.2
  refine ⟨by rw [e1], by rw [e2], hfind2, ?_⟩
  intro l hl
  refine ⟨_, hfind2, ?_⟩
  rcases hl with h | h <;> simp [h]

/-- Witness for C5: one file per request, distinct locations per
request. -/
theorem two_uploads_accumulate_witness :
    (postUploadRoute envL1 [] (some "p") [fA]).status = 201 ∧
    (postUploadRoute envL2 (postUploadRoute envL1 [] (some "p") [fA]).db
      (some "p") [fB]).status = 201 ∧
    findOne (postUploadRoute envL2
      (postUploadRoute envL1 [] (some "p") [fA]).db (some "p") [fB]).db "p" =
      some ⟨"p", batchUrls envL1 "p" [fA] ++ batchUrls envL2 "p" [fB]⟩ ∧
    ∀ l, (l ∈ batchUrls envL1 "p" [fA] ∨ l ∈ batchUrls envL2 "p" [fB]) →
      ∃ rec, findOne (postUploadRoute envL2
          (postUploadRoute envL1 [] (some "p") [fA]).db (some "p")
          [fB]).db "p" = some rec ∧ l ∈ rec.Jewellery :=
  two_uploads_accumulate envL1 envL2 [] "p" [fA] [fB] (by decide) rfl
    (by decide) (by decide) (by decide) rfl
    (by decide) (by decide) (by decide) rfl

/-! ## C8 -/

/-- C8 (confirmed): for every GET `/api/images/:productName` request, if a
record with that name exists the service responds 200 with the record's
JSON (whose `Jewellery` entry is the exact accumulated location list),
and if no record matches it responds 404 with `{ error }`. -/
theorem get_images_route_cases (db : List ProductRecord) (name : String) :
    (∀ r, findOne db name = some r →
      getImagesRoute db name =
        (200, (recordToJson r).map (fun p => (p.1, JVal.leaf p.2))) ∧
      jlookup (recordToJson r) "Jewellery" = some (.strArr r.Jewellery)) ∧
    (findOne db name = none →
      getImagesRoute db name =
        (404, [("error", .leaf (.str "Product not found"))])) := by
  constructor
  · intro r hr
    exact ⟨by simp [getImagesRoute, hr], rfl⟩
  · intro hn
    simp [getImagesRoute, hn]

/-- Witness for C8: a hit on an existing record and a miss on an unknown
name. -/
theorem get_images_route_cases_witness :
    (getImagesRoute [⟨"p", ["u1", "u2"]⟩] "p" =
      (200, (recordToJson ⟨"p", ["u1", "u2"]⟩).map
        (fun p => (p.1, JVal.leaf p.2))) ∧
     jlookup (recordToJson (⟨"p", ["u1", "u2"]⟩ : ProductRecord))
       "Jewellery" = some (.strArr ["u1", "u2"])) ∧
    getImagesRoute [⟨"p", ["u1", "u2"]⟩] "q" =
      (404, [("error", .leaf (.str "Product not found"))]) :=
  ⟨(get_images_route_cases [⟨"p", ["u1", "u2"]⟩] "p").1
      ⟨"p", ["u1", "u2"]⟩ rfl,
    (get_images_route_cases [⟨"p", ["u1", "u2"]⟩] "q").2 rfl⟩
